import Mathlib

/-!
Verification of the ARTLEE credential persistence and synchronization
subsystem against its specification.

The development shallowly embeds the credential code of the repository:

* the Retell credential configuration module (hardcoded fallback
  credentials, `validateCredentials`, `storeCredentialsEverywhere`,
  `initializeCredentialPersistence`) — translated from the source file
  shipped in the repository;
* the multi-tier fallback service for API keys (`storeInUserProfiles`,
  `retrieveFromUserProfiles`, `retrieveApiKeys`, ...). The service file
  itself is not among the staged sources; its behaviour is modelled from
  the specification together with the verbatim excerpts the repository
  documentation quotes from it;
* the global service initializer (`GlobalServiceInitializer`), translated
  from the source. Its `initialize` method is embedded under the name
  `initCall`, and `forceReinitialize` under `forceReinit`.

JavaScript strings become Lean `String`, absent (`undefined`/`null`)
values become `Option`, fallible storage calls become `Except`, and the
asynchronous event loop becomes explicit state passing over event lists.
-/

namespace Artlee

/-- Embedding of the JavaScript `String.prototype.startsWith` used
throughout the credential code, computed on the character data so that
the kernel can evaluate it on literals. -/
def strStartsWith (s p : String) : Bool := p.data.isPrefixOf s.data

/-- Truthiness of an optional JavaScript string: `undefined` and the
empty string are falsy, every other string is truthy. -/
def isTruthy : Option String → Bool
  | none => false
  | some s => !(s == "")

/-- Translated from the source: the `RetellCredentials` interface of the
credential configuration module (apiKey, callAgentId, smsAgentId). -/
structure RetellCredentials where
  apiKey : String
  callAgentId : String
  smsAgentId : String
deriving DecidableEq, Repr

/-- Translated from the source: the hardcoded ARTLEE production
credentials used as the fallback default (smsAgentId deliberately
empty). -/
def HARDCODED_RETELL_CREDENTIALS : RetellCredentials :=
  { apiKey := "key_3660938283961c067186004a50e3"
    callAgentId := "agent_ca2a01536c2e94d0ff4e50df70"
    smsAgentId := "" }

/-- A `Partial<RetellCredentials>` value: each field may be absent. -/
structure PartialRetellCredentials where
  apiKey : Option String
  callAgentId : Option String
  smsAgentId : Option String
deriving DecidableEq, Repr

/-- Translated from the source: `validateCredentials` of the credential
configuration module. All-falsy credentials are accepted (the comment in
the source says they fall back to hardcoded values); otherwise the API
key must carry the `key_` prefix, the call agent id the `agent_` prefix,
and the SMS agent id is optional but must carry the `agent_` prefix when
present. -/
def validateCredentials (credentials : PartialRetellCredentials) : Bool :=
  if !(isTruthy credentials.apiKey) && !(isTruthy credentials.callAgentId)
      && !(isTruthy credentials.smsAgentId) then
    true
  else
    let hasValidApiKey :=
      isTruthy credentials.apiKey && strStartsWith (credentials.apiKey.getD "") "key_"
    let hasValidCallAgent :=
      isTruthy credentials.callAgentId && strStartsWith (credentials.callAgentId.getD "") "agent_"
    let hasValidSmsAgent :=
      !(isTruthy credentials.smsAgentId) || strStartsWith (credentials.smsAgentId.getD "") "agent_"
    hasValidApiKey && hasValidCallAgent && hasValidSmsAgent

/-- The validity conditions exactly as the specification words them: the
API key present and `key_`-prefixed, the call agent id present and
`agent_`-prefixed, the SMS agent id absent or `agent_`-prefixed. Stated
separately from `validateCredentials` so the two can be compared. -/
def specValidCredentials (credentials : PartialRetellCredentials) : Bool :=
  (isTruthy credentials.apiKey && strStartsWith (credentials.apiKey.getD "") "key_")
  && (isTruthy credentials.callAgentId && strStartsWith (credentials.callAgentId.getD "") "agent_")
  && (!(isTruthy credentials.smsAgentId) || strStartsWith (credentials.smsAgentId.getD "") "agent_")

/-- Translated from the source: `getBulletproofCredentials` returns a copy
of the hardcoded production credentials. -/
def getBulletproofCredentials : RetellCredentials :=
  HARDCODED_RETELL_CREDENTIALS

/-- The JSON payload `storeCredentialsEverywhere` writes to each backup
location: the credentials spread together with a timestamp and the source
tag. `Date.now()` is passed in explicitly as `timestamp`. -/
structure StoredPayload where
  creds : RetellCredentials
  timestamp : Nat
  source : String
deriving DecidableEq, Repr

/-- The browser-storage state the credential configuration module touches:
the `justLoggedOut` flag in localStorage, the sessionStorage backup key,
the in-memory window backup, and the localStorage emergency recovery
key. -/
structure CredentialStores where
  justLoggedOut : Option String
  sessionBackup : Option StoredPayload
  memoryBackup : Option StoredPayload
  emergencyRecovery : Option StoredPayload
deriving DecidableEq, Repr

/-- Translated from the source: `storeCredentialsEverywhere`. When the
`justLoggedOut` flag reads `"true"` the function returns before touching
any location; otherwise it writes the payload to the session backup, the
memory backup and the emergency recovery key. -/
def storeCredentialsEverywhere (now : Nat) (credentials : RetellCredentials)
    (s : CredentialStores) : CredentialStores :=
  if s.justLoggedOut == some "true" then s
  else
    { s with
      sessionBackup := some ⟨credentials, now, "hardcoded_persistence"⟩
      memoryBackup := some ⟨credentials, now, "hardcoded_persistence"⟩
      emergencyRecovery := some ⟨credentials, now, "hardcoded_persistence"⟩ }

/-- Translated from the source: `initializeCredentialPersistence`,
embedded here under the shortened name `initCredentialPersistence`. It
re-checks the `justLoggedOut` flag and otherwise stores the bulletproof
credentials everywhere. -/
def initCredentialPersistence (now : Nat) (s : CredentialStores) : CredentialStores :=
  if s.justLoggedOut == some "true" then s
  else storeCredentialsEverywhere now getBulletproofCredentials s

/-- Translated from the source (the cross-device persistence fix notes
quote it verbatim): a credential set is test data when any field carries
one of the reserved synthetic prefixes. -/
def isTestCredentials (c : RetellCredentials) : Bool :=
  strStartsWith c.apiKey "test_key_"
  || strStartsWith c.callAgentId "test_call_agent_"
  || strStartsWith c.smsAgentId "test_sms_agent_"

/-- Modelled from the spec: the credential loading flow of the settings
component (its file `EnhancedApiKeyManager.tsx` is not among the staged
sources). Per the read path of the specification and the documented fix:
a localStorage credential set that is not test data is used as the cached
answer; test data is discarded and the cloud (primary source) result is
used instead; with no cloud data either, the hardcoded default is
returned. A localStorage value still carrying the encrypted marker is
modelled as an absent localStorage entry. -/
def loadCredentials (localSettings : Option RetellCredentials)
    (cloud : Option RetellCredentials) : RetellCredentials :=
  match localSettings with
  | some l => if isTestCredentials l then cloud.getD HARDCODED_RETELL_CREDENTIALS else l
  | none => cloud.getD HARDCODED_RETELL_CREDENTIALS

/-- An encrypted string as the Encryption Codec produces it. The codec is
an external collaborator, so ciphertexts are embedded as an opaque tagged
value (the repository marks them with a `cbc:` marker); `corrupted`
stands for a ciphertext decryption fails on. -/
inductive CipherText where
  | cbc (plaintext : String)
  | corrupted
deriving DecidableEq, Repr

/-- Modelled from the spec: the Encryption Codec encrypt direction. -/
def encryptString (plaintext : String) : CipherText := .cbc plaintext

/-- Modelled from the spec: the Encryption Codec decrypt direction, a
fallible operation whose failure reads as "no value available". -/
def decryptString : CipherText → Option String
  | .cbc s => some s
  | .corrupted => none

/-- Translated from the source (the tenant configuration the fix notes
quote verbatim): the active tenant id is the constant `artlee`. -/
def getCurrentTenantId : String := "artlee"

/-- The agent-config JSON object stored in `user_profiles`: call and SMS
agent identifiers, each possibly absent (the empty object has both
absent). -/
structure AgentConfig where
  call_agent_id : Option String
  sms_agent_id : Option String
deriving DecidableEq, Repr

/-- A row of the cloud-primary `user_profiles` table. Its `user_id`
column carries the unique constraint `user_profiles_user_id_key`;
`tenant_id` is a nullable column the upsert payload never mentions. -/
structure UserProfileRow where
  user_id : String
  tenant_id : Option String
  encrypted_retell_api_key : Option CipherText
  encrypted_agent_config : Option AgentConfig
  updated_at : Option Nat
deriving DecidableEq, Repr

/-- The payload `storeInUserProfiles` upserts: `user_id`, the encrypted
API key, the agent-config object and `updated_at` — and no `tenant_id`
column. -/
structure UserProfileUpsert where
  user_id : String
  encrypted_retell_api_key : Option CipherText
  encrypted_agent_config : Option AgentConfig
  updated_at : Nat
deriving DecidableEq, Repr

/-- Modelled from the spec: the cloud table client upsert on
`user_profiles`. Without an explicit conflict target a payload whose
`user_id` collides with an existing row is an insert that violates the
unique constraint and fails with a 409 (the documented failure mode);
with `onConflict: user_id` the colliding row is updated in place, its
`tenant_id` left untouched because the payload carries none. A fresh
insert leaves `tenant_id` null. -/
def upsertUserProfiles (onConflictUserId : Bool) (db : List UserProfileRow)
    (p : UserProfileUpsert) : Except String (List UserProfileRow) :=
  if db.any (fun r => r.user_id == p.user_id) then
    if onConflictUserId then
      .ok (db.map fun r =>
        if r.user_id == p.user_id then
          { r with
            encrypted_retell_api_key := p.encrypted_retell_api_key
            encrypted_agent_config := p.encrypted_agent_config
            updated_at := some p.updated_at }
        else r)
    else
      .error "409 Conflict: duplicate key value violates unique constraint user_profiles_user_id_key"
  else
    .ok (db ++ [{ user_id := p.user_id
                  tenant_id := none
                  encrypted_retell_api_key := p.encrypted_retell_api_key
                  encrypted_agent_config := p.encrypted_agent_config
                  updated_at := some p.updated_at }])

/-- Modelled from the spec: `storeInUserProfiles` of the API key fallback
service (its file is not among the staged sources; the analysis notes
quote the call verbatim). It upserts the encrypted API key and the
agent-config object keyed by `user_id`, with no conflict target and no
tenant column. -/
def storeInUserProfiles (now : Nat) (userId : String)
    (encryptedApiKey : Option CipherText) (agentConfig : Option AgentConfig)
    (db : List UserProfileRow) : Except String (List UserProfileRow) :=
  upsertUserProfiles false db ⟨userId, encryptedApiKey, agentConfig, now⟩

/-- The decrypted API key record the fallback service returns: API key
and the two agent identifiers, each possibly absent. -/
structure ApiKeys where
  retell_api_key : Option String
  call_agent_id : Option String
  sms_agent_id : Option String
deriving DecidableEq, Repr

/-- The encrypted key bundle the localStorage fallback stores under
`apikeys_` followed by the user id. -/
structure EncryptedKeys where
  retell_api_key : Option CipherText
  call_agent_id : Option CipherText
  sms_agent_id : Option CipherText
deriving DecidableEq, Repr

/-- A row of the cloud-secondary `user_settings` table, keyed by
`(user_id, tenant_id)`. -/
structure UserSettingsRow where
  user_id : String
  tenant_id : String
  retell_config : Option ApiKeys
  retell_agent_config : Option AgentConfig
  encrypted_api_keys : Option EncryptedKeys
deriving DecidableEq, Repr

/-- Modelled from the spec: `retrieveFromUserProfiles` of the fallback
service as currently shipped (the analysis notes quote the query
verbatim). It selects the row matching the user id and the current
tenant id, decrypts the API key, copies whatever agent identifiers the
stored agent-config object holds — an empty object yields none — and
reports success without consulting any other tier. -/
def retrieveFromUserProfiles (db : List UserProfileRow) (userId : String) :
    Except String ApiKeys :=
  match db.find? (fun r => r.user_id == userId && r.tenant_id == some getCurrentTenantId) with
  | none => .error "PGRST116: no rows returned"
  | some data =>
    let key := data.encrypted_retell_api_key.bind decryptString
    let agentConfig := data.encrypted_agent_config.getD ⟨none, none⟩
    .ok ⟨key, agentConfig.call_agent_id, agentConfig.sms_agent_id⟩

/-- Modelled from the spec: `retrievePartialFromUserProfiles` — API key
from `user_profiles`, agent identifiers from the `user_settings`
agent-config column, both scoped by the current tenant id. -/
def retrievePartialFromUserProfiles (db : List UserProfileRow)
    (settings : List UserSettingsRow) (userId : String) : Except String ApiKeys :=
  match db.find? (fun r => r.user_id == userId && r.tenant_id == some getCurrentTenantId) with
  | none => .error "PGRST116: no rows returned"
  | some data =>
    let key := data.encrypted_retell_api_key.bind decryptString
    let agentConfig :=
      ((settings.find? (fun r => r.user_id == userId && r.tenant_id == getCurrentTenantId)).bind
        (fun r => r.retell_agent_config)).getD ⟨none, none⟩
    .ok ⟨key, agentConfig.call_agent_id, agentConfig.sms_agent_id⟩

/-- Modelled from the spec: `retrieveFromUserSettings` — the plain
`retell_config` object of the tenant-scoped `user_settings` row. -/
def retrieveFromUserSettings (settings : List UserSettingsRow) (userId : String) :
    Except String ApiKeys :=
  match settings.find? (fun r => r.user_id == userId && r.tenant_id == getCurrentTenantId) with
  | none => .error "PGRST116: no rows returned"
  | some data =>
    match data.retell_config with
    | some cfg => .ok cfg
    | none => .error "no retell config stored"

/-- Modelled from the spec: `retrieveFromLocalStorage` — the encrypted
bundle under the per-user key, decrypted field by field. -/
def retrieveFromLocalStorage (localTier : Option EncryptedKeys) :
    Except String ApiKeys :=
  match localTier with
  | none => .error "no data in localStorage"
  | some e =>
    .ok ⟨e.retell_api_key.bind decryptString,
         e.call_agent_id.bind decryptString,
         e.sms_agent_id.bind decryptString⟩

/-- Modelled from the spec: `retrieveApiKeys`, the load entry point of
the fallback service as currently shipped. It tries the four retrieval
methods in order and returns the first successful result — so a
successful cloud-primary read is final even when its agent-config object
was empty. -/
def retrieveApiKeys (db : List UserProfileRow) (settings : List UserSettingsRow)
    (localTier : Option EncryptedKeys) (userId : String) : Except String ApiKeys :=
  match retrieveFromUserProfiles db userId with
  | .ok keys => .ok keys
  | .error _ =>
    match retrievePartialFromUserProfiles db settings userId with
    | .ok keys => .ok keys
    | .error _ =>
      match retrieveFromUserSettings settings userId with
      | .ok keys => .ok keys
      | .error _ => retrieveFromLocalStorage localTier

/-- Per-tier outcome of a save, as the ReconciliationResult reports it. -/
inductive TierOutcome where
  | success
  | skipped
  | failed
deriving DecidableEq, BEq, Repr

/-- Result of the save path: the overall verdict plus the outcome of each
persistent tier (cloud-primary, cloud-secondary, local). -/
structure SaveResult where
  overall : Bool
  cloudPrimary : TierOutcome
  cloudSecondary : TierOutcome
  localTier : TierOutcome
deriving DecidableEq, Repr

/-- Failed-tier count of a save result. -/
def SaveResult.failures (r : SaveResult) : Nat :=
  [r.cloudPrimary, r.cloudSecondary, r.localTier].count .failed

/-- Successful-tier count of a save result. -/
def SaveResult.successes (r : SaveResult) : Nat :=
  [r.cloudPrimary, r.cloudSecondary, r.localTier].count .success

/-- Modelled from the spec: `storeApiKeys`, the save entry point of the
fallback service (its file is not among the staged sources). The three
Booleans say whether each persistent tier would accept the write; the
tiers are attempted in order, each failure is caught and recorded and the
next tier is tried, so the function is total — no exception escapes — and
the overall verdict is success exactly when some persistent tier accepted
the write. -/
def storeApiKeys (cloudPrimaryOk cloudSecondaryOk localOk : Bool) : SaveResult :=
  if cloudPrimaryOk then ⟨true, .success, .skipped, .skipped⟩
  else if cloudSecondaryOk then ⟨true, .failed, .success, .skipped⟩
  else if localOk then ⟨true, .failed, .failed, .success⟩
  else ⟨false, .failed, .failed, .failed⟩

/-- Status of the memoized initialization promise. -/
inductive PStatus where
  | pending
  | resolved
  | rejected
deriving DecidableEq, Repr

/-- What a call to the initializer returns: nothing because the work is
already done, the promise it awaits, or the promise it has just started. -/
inductive CallResult where
  | alreadyDone
  | awaited (pid : Nat)
  | started (pid : Nat)
deriving DecidableEq, Repr

/-- Translated from the source: the static state of
`GlobalServiceInitializer` — the `initialized` flag and the memoized
`initPromise`, here carrying a fresh id and its settled status, plus the
id counter the embedding uses to mint fresh promises. -/
structure InitState where
  initialized : Bool
  initPromise : Option (Nat × PStatus)
  nextId : Nat
deriving DecidableEq, Repr

/-- The state at module load: not initialized, no promise memoized. -/
def initialInitState : InitState := ⟨false, none, 0⟩

/-- Translated from the source: `GlobalServiceInitializer.initialize`,
embedded here under the name `initCall`. If already initialized it
returns at once; if a promise is memoized it returns that same promise;
otherwise it starts `performInitialization`, memoizes the new promise
and returns it. -/
def initCall (s : InitState) : InitState × CallResult :=
  if s.initialized then (s, .alreadyDone)
  else
    match s.initPromise with
    | some (p, _) => (s, .awaited p)
    | none =>
      ({ initialized := false, initPromise := some (s.nextId, .pending), nextId := s.nextId + 1 },
       .started s.nextId)

/-- Translated from the source: the in-flight `performInitialization`
body finishing successfully — it sets `initialized` and resolves the
memoized promise, which is never cleared. -/
def completeSuccess (s : InitState) : InitState :=
  match s.initPromise with
  | some (p, .pending) => { s with initialized := true, initPromise := some (p, .resolved) }
  | _ => s

/-- Translated from the source: the in-flight body throwing — the error
is logged and rethrown, so the promise rejects, `initialized` stays
false, and the rejected promise stays memoized. -/
def completeFailure (s : InitState) : InitState :=
  match s.initPromise with
  | some (p, .pending) => { s with initPromise := some (p, .rejected) }
  | _ => s

/-- Translated from the source: `GlobalServiceInitializer.forceReinitialize`,
embedded here as `forceReinit` — reset the flag, drop the memoized
promise and run initialization again. -/
def forceReinit (s : InitState) : InitState × CallResult :=
  initCall { s with initialized := false, initPromise := none }

/-- An event of the single-threaded event loop that touches the
initializer: a call to `initCall`, or the in-flight body settling. -/
inductive InitEvent where
  | call
  | completeSucc
  | completeFail
deriving DecidableEq, Repr

/-- Whether a call result started a fresh run of the initialization body. -/
def startsBody : CallResult → Bool
  | .started _ => true
  | _ => false

/-- One event step: the successor state and whether the event started the
initialization body. -/
def stepEvent (s : InitState) : InitEvent → InitState × Bool
  | .call => ((initCall s).1, startsBody (initCall s).2)
  | .completeSucc => (completeSuccess s, false)
  | .completeFail => (completeFailure s, false)

/-- Run a list of events, counting how many of them started the
initialization body. -/
def runEvents : InitState → List InitEvent → InitState × Nat
  | s, [] => (s, 0)
  | s, e :: es =>
    ((runEvents (stepEvent s e).1 es).1,
     (if (stepEvent s e).2 then 1 else 0) + (runEvents (stepEvent s e).1 es).2)

/-- A state in which no new initialization body can start: the work is
done or a promise is memoized. -/
def busy (s : InitState) : Bool := s.initialized || s.initPromise.isSome

lemma stepEvent_busy (s : InitState) (e : InitEvent) (h : busy s = true) :
    busy (stepEvent s e).1 = true ∧ (stepEvent s e).2 = false := by
  cases e with
  | call =>
    by_cases hi : s.initialized
    · simp [stepEvent, initCall, hi, startsBody, busy]
    · have hp : s.initPromise.isSome = true := by
        simpa [busy, hi] using h
      cases hps : s.initPromise with
      | none => simp [hps] at hp
      | some pr =>
        cases pr with
        | mk p st => simp [stepEvent, initCall, hi, hps, startsBody, busy]
  | completeSucc =>
    cases hps : s.initPromise with
    | none => simpa [stepEvent, completeSuccess, hps, busy] using h
    | some pr =>
      cases pr with
      | mk p st =>
        cases st <;> simp_all [stepEvent, completeSuccess, hps, busy]
  | completeFail =>
    cases hps : s.initPromise with
    | none => simpa [stepEvent, completeFailure, hps, busy] using h
    | some pr =>
      cases pr with
      | mk p st =>
        cases st <;> simp_all [stepEvent, completeFailure, hps, busy]

lemma runEvents_busy (es : List InitEvent) :
    ∀ s : InitState, busy s = true → (runEvents s es).2 = 0 := by
  induction es with
  | nil => intro s _; rfl
  | cons e es ih =>
    intro s h
    have hb := stepEvent_busy s e h
    simp [runEvents, hb.2, ih _ hb.1]

lemma runEvents_le_one (es : List InitEvent) :
    ∀ s : InitState, (runEvents s es).2 ≤ 1 := by
  induction es with
  | nil => intro s; simp [runEvents]
  | cons e es ih =>
    intro s
    by_cases h : busy s = true
    · have hb := stepEvent_busy s e h
      simpa [runEvents, hb.2] using ih (stepEvent s e).1
    · have hi : s.initialized = false := by
        cases hv : s.initialized
        · rfl
        · exact absurd (by simp [busy, hv]) h
      have hp : s.initPromise = none := by
        cases hps : s.initPromise with
        | none => rfl
        | some pr => exact absurd (by simp [busy, hps]) h
      cases e with
      | call =>
        have hbusy : busy ⟨false, some (s.nextId, PStatus.pending), s.nextId + 1⟩ = true := by
          simp [busy]
        simp [runEvents, stepEvent, initCall, hi, hp, startsBody,
          runEvents_busy es _ hbusy]
      | completeSucc =>
        simpa [runEvents, stepEvent, completeSuccess, hp] using ih s
      | completeFail =>
        simpa [runEvents, stepEvent, completeFailure, hp] using ih s

/-- C1: the claim says every cloud-tier query and upsert of the credential
save and load paths carries the current tenant id as an equality filter or
written column, so runs differing only in another tenant's rows agree.
The cloud-primary upsert of `storeInUserProfiles` carries no tenant
column at all: against an empty table the save succeeds, while the same
save against a table holding only tenant_b's row for the same user id
fails with the 409 uniqueness violation — the presence of another
tenant's row changed the outcome. The read side does filter on the
current tenant and refuses tenant_b's row. -/
theorem tenant_scope_missing_in_primary_upsert :
    storeInUserProfiles 5 "u1" (some (.cbc "key_a")) (some ⟨some "agent_a", none⟩) []
      = .ok [⟨"u1", none, some (.cbc "key_a"), some ⟨some "agent_a", none⟩, some 5⟩] ∧
    storeInUserProfiles 5 "u1" (some (.cbc "key_a")) (some ⟨some "agent_a", none⟩)
        [⟨"u1", some "tenant_b", some (.cbc "key_b"), some ⟨some "agent_b", none⟩, some 0⟩]
      = .error "409 Conflict: duplicate key value violates unique constraint user_profiles_user_id_key" ∧
    retrieveFromUserProfiles
        [⟨"u1", some "tenant_b", some (.cbc "key_b"), some ⟨some "agent_b", none⟩, some 0⟩] "u1"
      = .error "PGRST116: no rows returned" :=
  ⟨rfl, rfl, rfl⟩

/-- C2: the claim says a load whose cloud-primary row decrypts the API
key but carries neither agent identifier recovers the agent identifiers
from a lower tier — with cloud-primary holding apiKey key_x and an empty
agent config, and the local tier holding call agent agent_y, load should
return key_x together with agent_y. The shipped load path instead
returns the cloud-primary result as final: the evaluation shows
`retrieveApiKeys` answering key_x with no agent identifiers even though
`retrieveFromLocalStorage` on the same local tier yields agent_y. -/
theorem load_ignores_local_agent_ids :
    retrieveApiKeys
        [⟨"u1", some "artlee", some (.cbc "key_x"), some ⟨none, none⟩, some 0⟩] []
        (some ⟨none, some (.cbc "agent_y"), none⟩) "u1"
      = .ok ⟨some "key_x", none, none⟩ ∧
    retrieveFromLocalStorage (some ⟨none, some (.cbc "agent_y"), none⟩)
      = .ok ⟨none, some "agent_y", none⟩ :=
  ⟨rfl, rfl⟩

/-- C3: the claim says saving the same credential set twice for the same
user leaves one row and the second call does not raise a conflict
violation. The shipped cloud-primary upsert names no conflict target:
the first save inserts the row, and the second save of the very same
credentials fails with the 409 uniqueness-constraint violation instead
of updating. -/
theorem second_save_hits_conflict :
    storeInUserProfiles 0 "U" (some (.cbc "key_abc")) (some ⟨some "agent_1", none⟩) []
      = .ok [⟨"U", none, some (.cbc "key_abc"), some ⟨some "agent_1", none⟩, some 0⟩] ∧
    storeInUserProfiles 1 "U" (some (.cbc "key_abc")) (some ⟨some "agent_1", none⟩)
        [⟨"U", none, some (.cbc "key_abc"), some ⟨some "agent_1", none⟩, some 0⟩]
      = .error "409 Conflict: duplicate key value violates unique constraint user_profiles_user_id_key" :=
  ⟨rfl, rfl⟩

/-- C4: with the global just-logged-out flag set, a save performs zero
writes to any tier and returns immediately: `storeCredentialsEverywhere`
and `initializeCredentialPersistence` both leave the entire storage state
unchanged. -/
theorem save_skips_all_tiers_after_logout (now : Nat) (credentials : RetellCredentials)
    (s : CredentialStores) (h : s.justLoggedOut = some "true") :
    storeCredentialsEverywhere now credentials s = s ∧
    initCredentialPersistence now s = s := by
  constructor <;> simp [storeCredentialsEverywhere, initCredentialPersistence, h]

/-- Witness for C4 at a concrete logged-out store state. -/
theorem save_skips_all_tiers_after_logout_witness :
    storeCredentialsEverywhere 0 HARDCODED_RETELL_CREDENTIALS ⟨some "true", none, none, none⟩
      = ⟨some "true", none, none, none⟩ ∧
    initCredentialPersistence 0 ⟨some "true", none, none, none⟩
      = ⟨some "true", none, none, none⟩ :=
  save_skips_all_tiers_after_logout 0 HARDCODED_RETELL_CREDENTIALS
    ⟨some "true", none, none, none⟩ rfl

/-- C5: provided the cloud tier holds no test data (the specification
invariant that test data never overwrites authoritative cloud data), the
credential loading flow never returns a test credential set — in
particular a localStorage set with a reserved synthetic prefix is
discarded in favour of cloud data — and when the cloud is empty and the
local tier holds only test data, the hardcoded default credential set is
returned instead of the test data. -/
theorem load_never_returns_test_data (cloud localSettings : Option RetellCredentials)
    (hcloud : ∀ c, cloud = some c → isTestCredentials c = false) :
    isTestCredentials (loadCredentials localSettings cloud) = false ∧
    (cloud = none →
      (∀ l, localSettings = some l → isTestCredentials l = true) →
      loadCredentials localSettings cloud = HARDCODED_RETELL_CREDENTIALS) := by
  have hh : isTestCredentials HARDCODED_RETELL_CREDENTIALS = false := by decide
  constructor
  · cases localSettings with
    | none =>
      cases cloud with
      | none => simpa [loadCredentials] using hh
      | some c => simpa [loadCredentials] using hcloud c rfl
    | some l =>
      cases ht : isTestCredentials l with
      | true =>
        cases cloud with
        | none => simpa [loadCredentials, ht] using hh
        | some c => simpa [loadCredentials, ht] using hcloud c rfl
      | false => simp [loadCredentials, ht]
  · intro hnone hlocal
    subst hnone
    cases localSettings with
    | none => simp [loadCredentials]
    | some l => simp [loadCredentials, hlocal l rfl]

/-- Witness for C5: the documented scenario of test credentials cached in
localStorage with nothing in the cloud resolves to the hardcoded
default. -/
theorem load_never_returns_test_data_witness :
    isTestCredentials
        (loadCredentials (some ⟨"test_key_123", "test_call_agent_1", ""⟩) none) = false ∧
    loadCredentials (some ⟨"test_key_123", "test_call_agent_1", ""⟩) none
      = HARDCODED_RETELL_CREDENTIALS := by
  have h := load_never_returns_test_data none
    (some ⟨"test_key_123", "test_call_agent_1", ""⟩) (fun c hc => by cases hc)
  exact ⟨h.1, h.2 rfl (fun l hl => by cases hl; decide)⟩

/-- C6: no exception escapes the save path — `storeApiKeys` is a total
function into per-tier outcomes — the overall verdict is success exactly
when some persistent tier accepted the write, and in the scenario where
both cloud tiers fail and the local tier succeeds the result is overall
success with two failed tiers and one successful tier. -/
theorem save_tolerates_partial_failure :
    (∀ p s l : Bool, (storeApiKeys p s l).overall = (p || s || l)) ∧
    storeApiKeys false false true = ⟨true, .failed, .failed, .success⟩ ∧
    (storeApiKeys false false true).failures = 2 ∧
    (storeApiKeys false false true).successes = 1 := by
  refine ⟨by decide, by decide, by decide, by decide⟩

/-- C7 counterexample: the claim says the validity predicate holds
exactly when the API key and call agent id are present and correctly
prefixed; the all-absent credential set meets none of those conditions,
yet `validateCredentials` accepts it. -/
theorem validate_claim_counterexample :
    validateCredentials ⟨none, none, none⟩ = true ∧
    specValidCredentials ⟨none, none, none⟩ = false := by
  decide

/-- C7 amended: `validateCredentials` returns true exactly when either
all three fields are absent or empty (the deliberate fall-back-to-
hardcoded case), or the API key is present with the key_ prefix, the
call agent id present with the agent_ prefix, and the SMS agent id
absent, empty, or agent_-prefixed. -/
theorem validate_amended_characterization (c : PartialRetellCredentials) :
    validateCredentials c =
      ((!(isTruthy c.apiKey) && !(isTruthy c.callAgentId) && !(isTruthy c.smsAgentId))
        || specValidCredentials c) := by
  unfold validateCredentials specValidCredentials
  cases hb : (!(isTruthy c.apiKey) && !(isTruthy c.callAgentId) && !(isTruthy c.smsAgentId)) with
  | true => simp [hb]
  | false => simp [hb]

/-- C8: the initializer is idempotent and single-flight — over any event
trace the initialization body starts at most once, a call made after
completion returns at once without re-running, and a call made while a
promise is memoized returns that same promise and leaves the state
unchanged. -/
theorem init_single_flight :
    (∀ events : List InitEvent, (runEvents initialInitState events).2 ≤ 1) ∧
    (∀ (op : Option (Nat × PStatus)) (n : Nat),
      initCall ⟨true, op, n⟩ = (⟨true, op, n⟩, .alreadyDone)) ∧
    (∀ (p : Nat) (st : PStatus) (n : Nat),
      initCall ⟨false, some (p, st), n⟩ = (⟨false, some (p, st), n⟩, .awaited p)) :=
  ⟨fun events => runEvents_le_one events initialInitState,
   fun _ _ => rfl, fun _ _ _ => rfl⟩

/-- C9: `validateCredentials` accepts the all-empty credential set, both
with every field absent and with every field the empty string — the
deliberate fall-back-to-hardcoded branch. -/
theorem validate_accepts_all_empty :
    validateCredentials ⟨none, none, none⟩ = true ∧
    validateCredentials ⟨some "", some "", some ""⟩ = true := by
  decide

/-- C10: a failed initialization is permanently memoized — the body
rejecting leaves the initialized flag false and the same promise
memoized as rejected, every later call returns that same rejected
promise without starting the body again, and only `forceReinitialize`
resets the state and starts a fresh run. -/
theorem init_failure_memoized :
    (∀ p n : Nat,
      completeFailure ⟨false, some (p, .pending), n⟩ = ⟨false, some (p, .rejected), n⟩) ∧
    (∀ p n : Nat,
      initCall ⟨false, some (p, .rejected), n⟩ = (⟨false, some (p, .rejected), n⟩, .awaited p)) ∧
    (∀ (p n : Nat) (i : Bool),
      forceReinit ⟨i, some (p, .rejected), n⟩ = (⟨false, some (n, .pending), n + 1⟩, .started n)) :=
  ⟨fun _ _ => rfl, fun _ _ => rfl, fun _ _ _ => rfl⟩

end Artlee
